import Mathlib

/-!
Shallow embedding of the Input Capture and Aggregation Engine of KMTracker
(`src/tracker.py` together with the storage layer `src/database.py`).

Conventions of the embedding:
* Python integers are modelled as `Int` (or `Nat` for Windows message
  constants), Python floats as `Rat` (the claims under scrutiny concern
  exact branch structure and additivity, not rounding).
* Python dictionaries are modelled as insertion-ordered association lists;
  `dict.get(k, 0) + v` followed by assignment becomes `alBump`.
* The single pixel distance produced by `math.sqrt(dx*dx + dy*dy)` in
  `on_move` is carried as explicit nonnegative event data (`dist_px`),
  because square roots of integers are irrational in general; everything
  downstream of the square root (`dist_px / px_per_mm / 1000`) is embedded
  exactly as written in the source.
-/

namespace KMTracker

/-- Windows message constant WM_KEYDOWN (tracker.py line 22). -/
def WM_KEYDOWN : Nat := 0x0100

/-- Windows message constant WM_KEYUP (tracker.py line 23). -/
def WM_KEYUP : Nat := 0x0101

/-- Windows message constant WM_SYSKEYDOWN (tracker.py line 24). -/
def WM_SYSKEYDOWN : Nat := 0x0104

/-- Windows message constant WM_SYSKEYUP (tracker.py line 25). -/
def WM_SYSKEYUP : Nat := 0x0105

/-- Windows message constant WM_MOUSEMOVE (tracker.py line 26). -/
def WM_MOUSEMOVE : Nat := 0x0200

/-- Windows message constant WM_LBUTTONDOWN (tracker.py line 27). -/
def WM_LBUTTONDOWN : Nat := 0x0201

/-- Windows message constant WM_RBUTTONDOWN (tracker.py line 28). -/
def WM_RBUTTONDOWN : Nat := 0x0204

/-- Windows message constant WM_MBUTTONDOWN (tracker.py line 29). -/
def WM_MBUTTONDOWN : Nat := 0x0207

/-- Windows message constant WM_MOUSEWHEEL (tracker.py line 30). -/
def WM_MOUSEWHEEL : Nat := 0x020A

/-- The LLKHF_INJECTED flag bit tested in the keyboard callback
(tracker.py line 312: `kb_struct.flags & 0x10`). -/
def LLKHF_INJECTED : Nat := 0x10

/-- Association-list update mirroring the Python idiom
`m[k] = m.get(k, 0) + v`: an existing key keeps its position in insertion
order, a new key is appended at the end. -/
def alBump {α : Type} [DecidableEq α] : List (α × Int) → α → Int → List (α × Int)
  | [], k, v => [(k, v)]
  | (k0, v0) :: rest, k, v =>
    if k0 = k then (k0, v0 + v) :: rest else (k0, v0) :: alBump rest k v

/-- Association-list lookup mirroring `m.get(k, d)`. -/
def alGetD {α β : Type} [DecidableEq α] : List (α × β) → α → β → β
  | [], _, d => d
  | (k0, v0) :: rest, k, d => if k0 = k then v0 else alGetD rest k d

/-- Per-application statistics record: one value of
`self.app_stats_buffer` in tracker.py, created as
`{'keys': 0, 'clicks': 0, 'scrolls': 0, 'distance': 0.0}`. -/
structure AppStats where
  keys : Int
  clicks : Int
  scrolls : Int
  distance : Rat
deriving DecidableEq, Repr

/-- The zero record inserted when an app is first seen
(tracker.py lines 368, 403, 414, 434). -/
def AppStats.zero : AppStats := ⟨0, 0, 0, 0⟩

/-- The Python idiom
`if app not in buffer: buffer[app] = zeros` followed by a field mutation
on `buffer[app]`: update the entry in place if present, else append the
mutation applied to the zero record. -/
def updApp (m : List (String × AppStats)) (app : String)
    (f : AppStats → AppStats) : List (String × AppStats) :=
  match m with
  | [] => [(app, f AppStats.zero)]
  | (a, st) :: rest =>
    if a = app then (a, f st) :: rest else (a, st) :: updApp rest app f

/-- The in-memory aggregation buffer of `InputTracker`
(tracker.py lines 69 to 79): scalar counters, the three maps, and the
last observed mouse position. -/
structure TrackerState where
  key_buffer : Int
  click_buffer : Int
  distance_buffer : Rat
  scroll_buffer : Rat
  app_stats_buffer : List (String × AppStats)
  heatmap_buffer : List (Nat × Int)
  mouse_heatmap_buffer : List ((Int × Int) × Int)
  last_mouse_pos : Option (Int × Int)
deriving DecidableEq, Repr

/-- The freshly constructed buffer (tracker.py `__init__`). -/
def initialState : TrackerState :=
  { key_buffer := 0
    click_buffer := 0
    distance_buffer := 0
    scroll_buffer := 0
    app_stats_buffer := []
    heatmap_buffer := []
    mouse_heatmap_buffer := []
    last_mouse_pos := none }

/-! ### Screen metrics (tracker.py `_init_screen_metrics`, lines 91 to 130) -/

/-- The pixels-per-millimetre computation of `_init_screen_metrics` on its
non-exception path (tracker.py lines 104 to 121): the four values returned
by GetDeviceCaps are the arguments (a failed query reads as 0), and the
source tests only `screen_width_mm > 0 and screen_width_px > 0` before
dividing; the heights are queried but never consulted.  The fallback is
`96 / 25.4` pixels per millimetre (96 DPI). -/
def computePxPerMm (screen_width_mm screen_height_mm
    screen_width_px screen_height_px : Int) : Rat :=
  if screen_width_mm > 0 ∧ screen_width_px > 0 then
    (screen_width_px : Rat) / (screen_width_mm : Rat)
  else
    96 / 25.4

/-! ### Event recording (tracker.py `on_press` / `on_move` / `on_click` /
`on_scroll`, lines 361 to 435)

Each handler resolves the foreground application by OS introspection
(`get_active_app_name`); the embedding receives the resolved name as the
`app` argument. -/

/-- `on_press` (tracker.py lines 361 to 378): increments `key_buffer`,
the active app entry of `app_stats_buffer` (keys), and the
`heatmap_buffer` bucket of the scan code.  The `on_key_press_callback`
invocation after the lock is released touches no buffer state. -/
def on_press (app : String) (s : TrackerState)
    (vk_code scan_code : Nat) : TrackerState :=
  { s with
    key_buffer := s.key_buffer + 1
    app_stats_buffer :=
      updApp s.app_stats_buffer app (fun st => { st with keys := st.keys + 1 })
    heatmap_buffer := alBump s.heatmap_buffer scan_code 1 }

/-- `on_move` (tracker.py lines 380 to 405).  `dist_px` stands for
`math.sqrt(dx*dx + dy*dy)`, the (always nonnegative) pixel distance from
`last_mouse_pos` to `(x, y)`; the conversion
`dist_meters = dist_px / px_per_mm / 1000.0` is embedded verbatim.  When
`last_mouse_pos` is `None` nothing is accumulated; in every case the last
position becomes `(x, y)`.  `app` is the throttled cached app name. -/
def on_move (px_per_mm : Rat) (app : String) (s : TrackerState)
    (x y : Int) (dist_px : Rat) : TrackerState :=
  match s.last_mouse_pos with
  | none => { s with last_mouse_pos := some (x, y) }
  | some _ =>
    let dist_meters := dist_px / px_per_mm / 1000
    { s with
      distance_buffer := s.distance_buffer + dist_meters
      app_stats_buffer :=
        updApp s.app_stats_buffer app
          (fun st => { st with distance := st.distance + dist_meters })
      last_mouse_pos := some (x, y) }

/-- `on_click` (tracker.py lines 407 to 425): increments `click_buffer`,
the active app entry (clicks), and the mouse-heatmap bucket
`((x // 5) * 5, (y // 5) * 5)` of the click position; Python `//` is
floor division, embedded as `Int.fdiv`. -/
def on_click (app : String) (s : TrackerState) (x y : Int) : TrackerState :=
  let bx := (Int.fdiv x 5) * 5
  let b_y := (Int.fdiv y 5) * 5
  { s with
    click_buffer := s.click_buffer + 1
    app_stats_buffer :=
      updApp s.app_stats_buffer app (fun st => { st with clicks := st.clicks + 1 })
    mouse_heatmap_buffer := alBump s.mouse_heatmap_buffer (bx, b_y) 1 }

/-- `on_scroll` (tracker.py lines 427 to 435): adds `abs(delta) / 120.0`
to `scroll_buffer` and adds `1` (not the notch count) to the active app
entry (scrolls). -/
def on_scroll (app : String) (s : TrackerState) (delta : Int) : TrackerState :=
  { s with
    scroll_buffer := s.scroll_buffer + (|delta| : Int) / (120 : Rat)
    app_stats_buffer :=
      updApp s.app_stats_buffer app
        (fun st => { st with scrolls := st.scrolls + 1 }) }

/-- The 5-pixel grid bucketing applied to a click position by `on_click`
(tracker.py lines 423 to 424). -/
def clickBucket (p : Int × Int) : Int × Int :=
  ((Int.fdiv p.1 5) * 5, (Int.fdiv p.2 5) * 5)

/-! ### Storage (database.py)

All claims under scrutiny concern a single calendar day, so the storage
model holds the rows keyed by the current date: the `daily_stats` row for
today (absent until first written), and the per-app, per-scan-code and
per-pixel-bucket tables restricted to today. -/

/-- One row of `daily_stats` (database.py lines 18 to 26). -/
structure DailyRow where
  key_count : Int
  mouse_click_count : Int
  mouse_distance : Rat
  scroll_distance : Rat
deriving DecidableEq, Repr

/-- Today's slice of the database tables touched by the flush cycle. -/
structure Storage where
  daily : Option DailyRow
  app_stats : List (String × AppStats)
  heatmap_data : List (Nat × Int)
  mouse_heatmap_data : List ((Int × Int) × Int)
deriving DecidableEq, Repr

/-- A database with no rows for today. -/
def Storage.empty : Storage := ⟨none, [], [], []⟩

/-- `Database.update_stats` (database.py lines 101 to 113): additive
upsert into today's `daily_stats` row. -/
def Storage.update_stats (db : Storage) (key_count click_count : Int)
    (distance scroll : Rat) : Storage :=
  { db with daily := some (match db.daily with
      | some r =>
        ⟨r.key_count + key_count, r.mouse_click_count + click_count,
         r.mouse_distance + distance, r.scroll_distance + scroll⟩
      | none => ⟨key_count, click_count, distance, scroll⟩) }

/-- Componentwise addition used by the `app_stats` upsert. -/
def AppStats.add (a b : AppStats) : AppStats :=
  ⟨a.keys + b.keys, a.clicks + b.clicks, a.scrolls + b.scrolls,
   a.distance + b.distance⟩

/-- Insert-or-add into an app-keyed map (the ON CONFLICT DO UPDATE of the
`app_stats` upsert). -/
def alBumpApp : List (String × AppStats) → String → AppStats →
    List (String × AppStats)
  | [], app, inc => [(app, inc)]
  | (a, st) :: rest, app, inc =>
    if a = app then (a, st.add inc) :: rest
    else (a, st) :: alBumpApp rest app inc

/-- `Database.update_app_stats` (database.py lines 115 to 127): additive
upsert into today's `app_stats` rows. -/
def Storage.update_app_stats (db : Storage) (app : String)
    (inc : AppStats) : Storage :=
  { db with app_stats := alBumpApp db.app_stats app inc }

/-- `Database.update_heatmap` (database.py lines 143 to 153): additive
upsert into today's `heatmap_data` rows. -/
def Storage.update_heatmap (db : Storage) (key_code : Nat)
    (count : Int) : Storage :=
  { db with heatmap_data := alBump db.heatmap_data key_code count }

/-- `Database.update_mouse_heatmap` (database.py lines 155 to 164):
additive upsert into today's `mouse_heatmap_data` rows. -/
def Storage.update_mouse_heatmap (db : Storage) (x y : Int)
    (count : Int) : Storage :=
  { db with mouse_heatmap_data := alBump db.mouse_heatmap_data (x, y) count }

/-- `Database.get_today_stats` (database.py lines 166 to 171): today's
`daily_stats` row, or `none` when absent. -/
def Storage.get_today_stats (db : Storage) : Option DailyRow := db.daily

/-- `Database.get_today_heatmap` (database.py lines 181 to 188): today's
keyboard heatmap as a key-code-to-count map. -/
def Storage.get_today_heatmap (db : Storage) : List (Nat × Int) :=
  db.heatmap_data

/-! ### Flushing (tracker.py `flush_stats`, lines 442 to 482)

`flush_stats` issues one storage upsert for the daily totals and one per
buffered app, scan code and mouse bucket, in that order, then resets the
buffers.  To reason about partial failure the embedding enumerates the
upserts the cycle would issue and runs them under an oracle naming the
upsert (by position) at which the database raises; the control flow of the
source dictates that on a raise the reset statements are never reached. -/

/-- The guard of `flush_stats` (tracker.py line 444): the cycle returns
at once when the four scalar counters are all zero (the maps are not
consulted). -/
def scalarsZero (s : TrackerState) : Prop :=
  s.key_buffer = 0 ∧ s.click_buffer = 0 ∧
  s.distance_buffer = 0 ∧ s.scroll_buffer = 0

instance (s : TrackerState) : Decidable (scalarsZero s) := by
  unfold scalarsZero; infer_instance

/-- The storage upserts one flush cycle issues, in source order
(tracker.py lines 449 to 469). -/
def flushCalls (s : TrackerState) : List (Storage → Storage) :=
  (fun db => db.update_stats s.key_buffer s.click_buffer
      s.distance_buffer s.scroll_buffer)
  :: (s.app_stats_buffer.map fun p db => db.update_app_stats p.1 p.2)
  ++ (s.heatmap_buffer.map fun p db => db.update_heatmap p.1 p.2)
  ++ (s.mouse_heatmap_buffer.map fun p db => db.update_mouse_heatmap
        p.1.1 p.1.2 p.2)

/-- Runs a list of storage calls starting at position `idx`; a call whose
position equals `failAt` raises instead of executing.  Returns the
storage after the calls that did run, the number of calls issued, and
whether a raise occurred. -/
def runCalls (failAt : Option Nat) (idx : Nat) :
    List (Storage → Storage) → Storage → Storage × Nat × Bool
  | [], db => (db, 0, false)
  | c :: rest, db =>
    if failAt = some idx then (db, 0, true)
    else
      let r := runCalls failAt (idx + 1) rest (c db)
      (r.1, r.2.1 + 1, r.2.2)

/-- The buffer reset at the end of a successful cycle (tracker.py lines
472 to 482): scalars to zero, all three maps cleared;
`last_mouse_pos` is untouched. -/
def clearBuffers (s : TrackerState) : TrackerState :=
  { s with
    key_buffer := 0
    click_buffer := 0
    distance_buffer := 0
    scroll_buffer := 0
    app_stats_buffer := []
    heatmap_buffer := []
    mouse_heatmap_buffer := [] }

/-- Result of one flush cycle. -/
structure FlushResult where
  tracker : TrackerState
  db : Storage
  calls : Nat
  raised : Bool
deriving Repr

/-- `flush_stats` under the failure oracle: early return on the all-zero
scalar guard; otherwise issue the upserts in source order, and reset the
buffers only if no upsert raised (on a raise the exception propagates out
of `flush_stats` before any reset statement runs). -/
def flush_statsF (failAt : Option Nat) (s : TrackerState)
    (db : Storage) : FlushResult :=
  if scalarsZero s then ⟨s, db, 0, false⟩
  else
    let r := runCalls failAt 0 (flushCalls s) db
    if r.2.2 then ⟨s, r.1, r.2.1, true⟩
    else ⟨clearBuffers s, r.1, r.2.1, false⟩

/-- `flush_stats` on the normal path (no storage failure). -/
def flush_stats (s : TrackerState) (db : Storage) : FlushResult :=
  flush_statsF none s db

/-- The effect of a failure-free flush on the in-memory buffer alone
(the guard never reads the database). -/
def flushBuffer (s : TrackerState) : TrackerState :=
  if scalarsZero s then s else clearBuffers s

/-- The buffer is entirely empty: no counter changed since the last
cycle and all three maps are empty. -/
def bufferEmpty (s : TrackerState) : Prop :=
  scalarsZero s ∧ s.app_stats_buffer = [] ∧
  s.heatmap_buffer = [] ∧ s.mouse_heatmap_buffer = []

instance (s : TrackerState) : Decidable (bufferEmpty s) := by
  unfold bufferEmpty; infer_instance

/-! ### Snapshot (tracker.py `get_stats_snapshot`, lines 147 to 196) -/

/-- Additive merge of a database map with the not-yet-flushed buffer
increments (tracker.py lines 168 to 170: `merged = dict(db_heatmap)` then
one `alBump` per buffer entry). -/
def mergeCounts {α : Type} [DecidableEq α] (dbm bufm : List (α × Int)) :
    List (α × Int) :=
  bufm.foldl (fun acc p => alBump acc p.1 p.2) dbm

/-- The dictionary returned by `get_stats_snapshot`. -/
structure StatsSnapshot where
  keys : Int
  clicks : Int
  distance : Rat
  scroll : Rat
  heatmap : List (Nat × Int)
  mouse_heatmap : List ((Int × Int) × Int)
  buffer_keys : Int
  buffer_clicks : Int
  buffer_distance : Rat
  buffer_scroll : Rat
  buffer_heatmap : List (Nat × Int)
deriving DecidableEq, Repr

/-- `get_stats_snapshot` (tracker.py lines 147 to 196): scalar totals are
the `daily_stats` row (when present) plus the buffers; the keyboard
heatmap is the database map merged additively with the buffer; the
`mouse_heatmap` entry is `dict(self.mouse_heatmap_buffer)` — the buffer
alone, with no database contribution (lines 181 and 189). -/
def get_stats_snapshot (s : TrackerState) (db : Storage) : StatsSnapshot :=
  let scalars : Int × Int × Rat × Rat :=
    match db.get_today_stats with
    | some r =>
      (r.key_count + s.key_buffer, r.mouse_click_count + s.click_buffer,
       r.mouse_distance + s.distance_buffer,
       r.scroll_distance + s.scroll_buffer)
    | none =>
      (s.key_buffer, s.click_buffer, s.distance_buffer, s.scroll_buffer)
  { keys := scalars.1
    clicks := scalars.2.1
    distance := scalars.2.2.1
    scroll := scalars.2.2.2
    heatmap := mergeCounts db.get_today_heatmap s.heatmap_buffer
    mouse_heatmap := s.mouse_heatmap_buffer
    buffer_keys := s.key_buffer
    buffer_clicks := s.click_buffer
    buffer_distance := s.distance_buffer
    buffer_scroll := s.scroll_buffer
    buffer_heatmap := s.heatmap_buffer }

/-- Today's persisted key count as the snapshot sees it: the row value
when a row exists, zero otherwise. -/
def Storage.todayKeys (db : Storage) : Int :=
  match db.daily with | some r => r.key_count | none => 0

/-- Today's persisted click count as the snapshot sees it. -/
def Storage.todayClicks (db : Storage) : Int :=
  match db.daily with | some r => r.mouse_click_count | none => 0

/-- Today's persisted mouse distance as the snapshot sees it. -/
def Storage.todayDistance (db : Storage) : Rat :=
  match db.daily with | some r => r.mouse_distance | none => 0

/-- Today's persisted scroll total as the snapshot sees it. -/
def Storage.todayScroll (db : Storage) : Rat :=
  match db.daily with | some r => r.scroll_distance | none => 0

/-! ### Hook callbacks (tracker.py lines 304 to 334)

The callbacks are embedded as straight-line effect traces plus the value
returned to the OS.  `CallNextHookEx` returns `passResult`; the body of
the `try` block may raise (the `bodyRaises` flag), and a raise anywhere in
it is swallowed by the bare `except` of the source. -/

/-- An observable action of a hook callback. -/
inductive CbAction
  | callNextHookEx
  | recordKey
  | recordMove
  | recordClick
  | recordScroll
deriving DecidableEq, Repr

/-- The `try` body of the keyboard callback (tracker.py lines 307 to
313): on `nCode >= 0` and a key-down or system-key-down message, a
non-injected event reaches `on_press`. -/
def keyboardBody (nCode : Int) (wParam flags : Nat) : List CbAction :=
  if 0 ≤ nCode then
    if wParam = WM_KEYDOWN ∨ wParam = WM_SYSKEYDOWN then
      if flags &&& LLKHF_INJECTED = 0 then [CbAction.recordKey] else []
    else []
  else []

/-- The `try` body of the mouse callback (tracker.py lines 321 to 331). -/
def mouseBody (nCode : Int) (wParam : Nat) : List CbAction :=
  if 0 ≤ nCode then
    if wParam = WM_MOUSEMOVE then [CbAction.recordMove]
    else if wParam = WM_LBUTTONDOWN ∨ wParam = WM_RBUTTONDOWN ∨
        wParam = WM_MBUTTONDOWN then [CbAction.recordClick]
    else if wParam = WM_MOUSEWHEEL then [CbAction.recordScroll]
    else []
  else []

/-- The `try ... except: pass` wrapper of both callbacks: a raising body
contributes no recorded action and no propagated exception. -/
def tryBody (bodyRaises : Bool) (body : List CbAction) :
    Except Unit (List CbAction) :=
  if bodyRaises then Except.error () else Except.ok body

/-- `low_level_keyboard_proc` (tracker.py lines 304 to 316):
`CallNextHookEx` first, then the guarded classification, then
`return result`.  The second component is the value the callback returns
to the OS, `Except.error` standing for a propagated exception. -/
def low_level_keyboard_proc (nCode : Int) (wParam flags : Nat)
    (passResult : Int) (bodyRaises : Bool) :
    List CbAction × Except Unit Int :=
  let result := passResult
  match tryBody bodyRaises (keyboardBody nCode wParam flags) with
  | Except.ok acts => (CbAction.callNextHookEx :: acts, Except.ok result)
  | Except.error _ => (CbAction.callNextHookEx :: [], Except.ok result)

/-- `low_level_mouse_proc` (tracker.py lines 318 to 334): same shape as
the keyboard callback. -/
def low_level_mouse_proc (nCode : Int) (wParam : Nat)
    (passResult : Int) (bodyRaises : Bool) :
    List CbAction × Except Unit Int :=
  let result := passResult
  match tryBody bodyRaises (mouseBody nCode wParam) with
  | Except.ok acts => (CbAction.callNextHookEx :: acts, Except.ok result)
  | Except.error _ => (CbAction.callNextHookEx :: [], Except.ok result)

/-! ### Keyboard events end to end (claim C1) -/

/-- A keyboard hook callback invocation: the hook parameters, the
`KBDLLHOOKSTRUCT` fields the callback reads, and the app name
`get_active_app_name` resolves when `on_press` runs. -/
structure KbEvent where
  nCode : Int
  wParam : Nat
  flags : Nat
  vkCode : Nat
  scanCode : Nat
  app : String
deriving DecidableEq, Repr

/-- The keyboard callback filter (tracker.py lines 308 to 312): the
event reaches `on_press` exactly when `nCode >= 0`, the message is
key-down or system-key-down, and the injected flag bit is clear. -/
def kbCounts (e : KbEvent) : Bool :=
  decide (0 ≤ e.nCode) &&
  (decide (e.wParam = WM_KEYDOWN) || decide (e.wParam = WM_SYSKEYDOWN)) &&
  decide (e.flags &&& LLKHF_INJECTED = 0)

/-- The effect of one keyboard callback invocation on the buffer. -/
def processKbEvent (s : TrackerState) (e : KbEvent) : TrackerState :=
  if kbCounts e then on_press e.app s e.vkCode e.scanCode else s

/-- A sequence of keyboard callback invocations folded over the buffer. -/
def processKbEvents (evs : List KbEvent) (s : TrackerState) : TrackerState :=
  evs.foldl processKbEvent s

/-! ### Lock-discipline traces (claims about what runs under the mutex)

Each method of `InputTracker` that takes `self.lock` is summarised as a
straight-line trace of its externally visible steps in source order;
`annotateHeld` then marks every step with whether the mutex is held while
it runs. -/

/-- One step of a method that interacts with the mutex. -/
inductive LockedOp
  | acquireLock
  | releaseLock
  | storageRead (name : String)
  | storageWrite (name : String)
  | osIntrospect (name : String)
  | memOp (name : String)
deriving DecidableEq, Repr

/-- Is the step a call out of the in-memory world (database access or OS
introspection)? -/
def isExternalCall : LockedOp → Bool
  | LockedOp.storageRead _ => true
  | LockedOp.storageWrite _ => true
  | LockedOp.osIntrospect _ => true
  | _ => false

/-- Annotates each step with whether the lock is held while it runs
(an acquire itself runs lock-free, a release still holds it). -/
def annotateHeld : Bool → List LockedOp → List (LockedOp × Bool)
  | _, [] => []
  | h, op :: rest =>
    (op, h) :: annotateHeld
      (match op with
       | LockedOp.acquireLock => true
       | LockedOp.releaseLock => false
       | _ => h) rest

/-- Does the trace perform a database or OS-introspection call while the
lock is held? -/
def externalWhileLocked (tr : List LockedOp) : Bool :=
  (annotateHeld false tr).any fun p => isExternalCall p.1 && p.2

/-- `get_stats_snapshot` as a trace (tracker.py lines 149 to 196): the
`with self.lock` block spans both database reads and the merge; only the
final dictionary construction happens after release. -/
def get_stats_snapshot_trace : List LockedOp :=
  [LockedOp.acquireLock,
   LockedOp.storageRead "get_today_stats",
   LockedOp.memOp "merge scalar totals",
   LockedOp.storageRead "get_today_heatmap",
   LockedOp.memOp "merge heatmap and copy buffers",
   LockedOp.releaseLock,
   LockedOp.memOp "build result dictionary"]

/-- `get_active_app_name` as a trace (tracker.py lines 281 to 302):
foreground-window and process introspection, plus a metadata upsert into
the database the first time an app is seen
(`_check_update_metadata`, lines 254 to 279). -/
def get_active_app_trace (firstSeen : Bool) : List LockedOp :=
  LockedOp.osIntrospect "foreground window and process lookup"
  :: (if firstSeen then [LockedOp.storageWrite "update_app_metadata"]
      else [])

/-- `on_press` as a trace (tracker.py lines 361 to 378): the app
resolution runs inside the `with self.lock` block. -/
def on_press_trace (firstSeen : Bool) : List LockedOp :=
  [LockedOp.acquireLock, LockedOp.memOp "key_buffer increment"]
  ++ get_active_app_trace firstSeen
  ++ [LockedOp.memOp "app_stats_buffer update",
      LockedOp.memOp "heatmap_buffer update",
      LockedOp.releaseLock,
      LockedOp.memOp "key press callback"]

/-- `on_click` as a trace (tracker.py lines 407 to 425). -/
def on_click_trace (firstSeen : Bool) : List LockedOp :=
  [LockedOp.acquireLock, LockedOp.memOp "click_buffer increment"]
  ++ get_active_app_trace firstSeen
  ++ [LockedOp.memOp "app_stats_buffer update",
      LockedOp.memOp "mouse_heatmap_buffer update",
      LockedOp.releaseLock]

/-- `on_scroll` as a trace (tracker.py lines 427 to 435). -/
def on_scroll_trace (firstSeen : Bool) : List LockedOp :=
  [LockedOp.acquireLock, LockedOp.memOp "scroll_buffer update"]
  ++ get_active_app_trace firstSeen
  ++ [LockedOp.memOp "app_stats_buffer update",
      LockedOp.releaseLock]

/-- `on_move` as a trace (tracker.py lines 380 to 405): the throttled
active-app refresh (`refresh` true when the 500 ms window elapsed) runs
inside the `with self.lock` block. -/
def on_move_trace (refresh firstSeen : Bool) : List LockedOp :=
  [LockedOp.acquireLock, LockedOp.memOp "distance_buffer update"]
  ++ (if refresh then get_active_app_trace firstSeen else [])
  ++ [LockedOp.memOp "app distance update",
      LockedOp.releaseLock,
      LockedOp.memOp "last_mouse_pos update"]

/-! ### Sequences of record and flush operations (buffer lifecycle) -/

/-- One operation against the aggregation buffer: a record call (with
the active app name the tracker resolves at that moment, and for a move
the pixel distance `math.sqrt` produced) or a flush cycle. -/
inductive TrackOp
  | press (app : String) (vk_code scan_code : Nat)
  | move (app : String) (x y : Int) (dist_px : Rat)
  | click (app : String) (x y : Int)
  | scroll (app : String) (delta : Int)
  | flush
deriving DecidableEq, Repr

/-- An operation is well formed when its data can actually arise in the
source: the pixel distance of a move is a square root, hence
nonnegative. -/
def validOp : TrackOp → Bool
  | TrackOp.move _ _ _ d => decide (0 ≤ d)
  | _ => true

/-- The buffer transition of one operation (`px_per_mm` is the screen
metric fixed at construction). -/
def stepOp (px_per_mm : Rat) (s : TrackerState) : TrackOp → TrackerState
  | TrackOp.press app vk sc => on_press app s vk sc
  | TrackOp.move app x y d => on_move px_per_mm app s x y d
  | TrackOp.click app x y => on_click app s x y
  | TrackOp.scroll app delta => on_scroll app s delta
  | TrackOp.flush => flushBuffer s

/-- A whole history of record and flush operations, run from the freshly
constructed buffer. -/
def runOps (px_per_mm : Rat) (ops : List TrackOp) : TrackerState :=
  ops.foldl (stepOp px_per_mm) initialState

/-- Nonnegativity of one per-app record. -/
def NonNegApp (a : AppStats) : Prop :=
  0 ≤ a.keys ∧ 0 ≤ a.clicks ∧ 0 ≤ a.scrolls ∧ 0 ≤ a.distance

instance (a : AppStats) : Decidable (NonNegApp a) := by
  unfold NonNegApp; infer_instance

/-- Every counter of the buffer is nonnegative: the four scalars, every
per-app record, every keyboard-heatmap count and every mouse-heatmap
count. -/
def NonNeg (s : TrackerState) : Prop :=
  0 ≤ s.key_buffer ∧ 0 ≤ s.click_buffer ∧
  0 ≤ s.distance_buffer ∧ 0 ≤ s.scroll_buffer ∧
  (∀ p ∈ s.app_stats_buffer, NonNegApp p.2) ∧
  (∀ p ∈ s.heatmap_buffer, 0 ≤ p.2) ∧
  (∀ p ∈ s.mouse_heatmap_buffer, 0 ≤ p.2)

instance (s : TrackerState) : Decidable (NonNeg s) := by
  unfold NonNeg; infer_instance

/-! ## Theorems -/

/-- Claim C6 counterexample: with a zero physical height
(`screen_height_mm = 0`) but positive physical width, the code does not
fall back to the 96-DPI constant — it divides the pixel width by the
millimetre width (it never consults the heights), contradicting the
claim that a zero height forces the fallback. -/
theorem px_per_mm_ignores_zero_height :
    computePxPerMm 300 0 1920 1080 = 1920 / 300 ∧
    computePxPerMm 300 0 1920 1080 ≠ 96 / 25.4 := by
  constructor
  · norm_num [computePxPerMm]
  · norm_num [computePxPerMm]

/-- Claim C6 amended: `pxPerMm` is computed once as
`widthPx / widthMm`, and the 96-DPI fallback (`96 / 25.4` pixels per
millimetre) is taken exactly when the physical *width* in millimetres or
the pixel width is zero or negative; the physical height is queried but
never consulted by the branch. -/
theorem px_per_mm_fallback_width_only (wmm hmm wpx hpx : Int) :
    (wmm > 0 ∧ wpx > 0 →
      computePxPerMm wmm hmm wpx hpx = (wpx : Rat) / (wmm : Rat)) ∧
    (¬ (wmm > 0 ∧ wpx > 0) →
      computePxPerMm wmm hmm wpx hpx = 96 / 25.4) := by
  constructor <;> intro h <;> simp [computePxPerMm, h]

/-- Witness for `px_per_mm_fallback_width_only` at concrete screens:
a 300 mm wide, 1920 px display divides, a display reporting zero
physical width falls back. -/
theorem px_per_mm_fallback_width_only_witness :
    computePxPerMm 300 200 1920 1080 = (1920 : Rat) / (300 : Rat) ∧
    computePxPerMm 0 200 1920 1080 = 96 / 25.4 :=
  ⟨(px_per_mm_fallback_width_only 300 200 1920 1080).1 (by norm_num),
   (px_per_mm_fallback_width_only 0 200 1920 1080).2 (by norm_num)⟩

/-- Claim C7: every click increments exactly the 5-pixel grid bucket
`(floor(x/5)*5, floor(y/5)*5)` of its screen coordinate, the bucketing
function is idempotent, and in particular the points `(12, 7)` and
`(10, 5)` both map to the bucket key `(10, 5)`. -/
theorem click_bucket_grid_idempotent :
    (∀ (app : String) (s : TrackerState) (x y : Int),
      (on_click app s x y).mouse_heatmap_buffer
        = alBump s.mouse_heatmap_buffer (clickBucket (x, y)) 1) ∧
    (∀ p : Int × Int, clickBucket (clickBucket p) = clickBucket p) ∧
    clickBucket (12, 7) = (10, 5) ∧ clickBucket (10, 5) = (10, 5) := by
  refine ⟨fun app s x y => rfl, fun p => ?_, by decide, by decide⟩
  unfold clickBucket
  rw [Int.mul_fdiv_cancel _ (by norm_num), Int.mul_fdiv_cancel _ (by norm_num)]

/-- Reading back the entry `updApp` touched: the update function applied
to the previous value (the zero record when the key was absent). -/
theorem alGetD_updApp (m : List (String × AppStats)) (k : String)
    (f : AppStats → AppStats) :
    alGetD (updApp m k f) k AppStats.zero
      = f (alGetD m k AppStats.zero) := by
  induction m with
  | nil => simp [updApp, alGetD]
  | cons p rest ih =>
    obtain ⟨a, st⟩ := p
    by_cases h : a = k
    · simp [updApp, alGetD, h]
    · simp [updApp, alGetD, h, ih]

/-- Claim C5 counterexample: for a scroll of wheel delta `240`
(two notches) in app `X`, the global accumulator gains
`abs(240) / 120 = 2`, but the per-app scroll counter gains `1`, not the
`2` the claim requires on both counters. -/
theorem scroll_app_counter_not_notch_scaled :
    (on_scroll "X" initialState 240).scroll_buffer = 2 ∧
    (alGetD (on_scroll "X" initialState 240).app_stats_buffer
        "X" AppStats.zero).scrolls = 1 ∧
    ¬ ((alGetD (on_scroll "X" initialState 240).app_stats_buffer
        "X" AppStats.zero).scrolls = 2) := by
  refine ⟨?_, ?_, ?_⟩
  · norm_num [on_scroll, initialState]
  · simp [on_scroll, initialState, updApp, alGetD, AppStats.zero]
  · simp [on_scroll, initialState, updApp, alGetD, AppStats.zero]

/-- Claim C5 amended: `on_scroll(delta)` adds `abs(delta) / 120` to the
global scroll accumulator, but increments the active app entry by one
scroll *event*, irrespective of the wheel delta. -/
theorem scroll_notches_global_event_per_app (app : String)
    (s : TrackerState) (delta : Int) :
    (on_scroll app s delta).scroll_buffer
      = s.scroll_buffer + ((|delta| : Int) : Rat) / 120 ∧
    (alGetD (on_scroll app s delta).app_stats_buffer
        app AppStats.zero).scrolls
      = (alGetD s.app_stats_buffer app AppStats.zero).scrolls + 1 := by
  constructor
  · rfl
  · show (alGetD (updApp _ _ _) _ _).scrolls = _
    rw [alGetD_updApp]

/-- Claim C2: both hook callbacks call `CallNextHookEx` as their first
action, return its result in every case (whatever `nCode`, the message,
the flags, or a raise inside the classification body), and never let an
exception propagate out of the callback. -/
theorem callbacks_pass_through_first_never_raise (nCode : Int)
    (wParamK wParamM flags : Nat) (rK rM : Int) (bK bM : Bool) :
    ((low_level_keyboard_proc nCode wParamK flags rK bK).1.head?
        = some CbAction.callNextHookEx ∧
      (low_level_keyboard_proc nCode wParamK flags rK bK).2
        = Except.ok rK) ∧
    ((low_level_mouse_proc nCode wParamM rM bM).1.head?
        = some CbAction.callNextHookEx ∧
      (low_level_mouse_proc nCode wParamM rM bM).2 = Except.ok rM) := by
  cases bK <;> cases bM <;>
    simp [low_level_keyboard_proc, low_level_mouse_proc, tryBody]

/-- Claim C3 counterexample: `get_stats_snapshot` performs both database
reads *inside* the `with self.lock` block, and `on_press` resolves the
active application (OS introspection) inside the lock as well — the
mutex is not held only for pure in-memory work. -/
theorem snapshot_reads_storage_under_lock :
    externalWhileLocked get_stats_snapshot_trace = true ∧
    externalWhileLocked (on_press_trace false) = true := by decide

/-- Claim C3 amended: the storage fetches of `get_stats_snapshot`
(`get_today_stats` and `get_today_heatmap`) and its merge run while the
lock is held, and every record path that resolves the active app
(`on_press`, `on_click`, `on_scroll`, and `on_move` on a throttle
refresh) performs that OS introspection while holding the lock. -/
theorem lock_covers_storage_and_os_calls :
    ((LockedOp.storageRead "get_today_stats", true)
        ∈ annotateHeld false get_stats_snapshot_trace) ∧
    ((LockedOp.storageRead "get_today_heatmap", true)
        ∈ annotateHeld false get_stats_snapshot_trace) ∧
    ((LockedOp.memOp "merge heatmap and copy buffers", true)
        ∈ annotateHeld false get_stats_snapshot_trace) ∧
    (∀ b : Bool,
      (LockedOp.osIntrospect "foreground window and process lookup", true)
        ∈ annotateHeld false (on_press_trace b)) ∧
    (∀ b : Bool,
      (LockedOp.osIntrospect "foreground window and process lookup", true)
        ∈ annotateHeld false (on_click_trace b)) ∧
    (∀ b : Bool,
      (LockedOp.osIntrospect "foreground window and process lookup", true)
        ∈ annotateHeld false (on_scroll_trace b)) ∧
    (∀ b : Bool,
      (LockedOp.osIntrospect "foreground window and process lookup", true)
        ∈ annotateHeld false (on_move_trace true b)) := by decide

/-- A sequence of keyboard callbacks grows the key counter by exactly
the number of events that pass the callback filter. -/
theorem processKbEvents_key_buffer (evs : List KbEvent)
    (s : TrackerState) :
    (processKbEvents evs s).key_buffer
      = s.key_buffer + ((evs.filter kbCounts).length : Int) := by
  induction evs generalizing s with
  | nil => simp [processKbEvents]
  | cons e rest ih =>
    simp only [processKbEvents, List.foldl_cons] at ih ⊢
    by_cases h : kbCounts e
    · rw [List.filter_cons_of_pos h, ih]
      simp [processKbEvent, h, on_press]
      ring
    · rw [List.filter_cons_of_neg (by simpa using h), ih]
      simp [processKbEvent, h]

/-- Claim C1: starting from the fresh aggregator, a sequence of N
keyboard-hook callbacks that are all key-down or system-key-down events
with `nCode >= 0` and a clear injected bit (`0x10`) leaves the key
counter at exactly N, and any single callback failing that filter
(a key-up, or an injected event) leaves the key counter unchanged. -/
theorem keyboard_key_count_exact :
    (∀ evs : List KbEvent, (∀ e ∈ evs, kbCounts e = true) →
      (processKbEvents evs initialState).key_buffer = (evs.length : Int)) ∧
    (∀ (s : TrackerState) (e : KbEvent), kbCounts e = false →
      (processKbEvent s e).key_buffer = s.key_buffer) := by
  constructor
  · intro evs h
    rw [processKbEvents_key_buffer, List.filter_eq_self.mpr h]
    simp [initialState]
  · intro s e h
    simp [processKbEvent, h]

/-- Witness for `keyboard_key_count_exact`: two valid key-down events
count 2; a key-up event (message `0x0101`) counts 0. -/
theorem keyboard_key_count_exact_witness :
    (processKbEvents
        [⟨0, 0x0100, 0, 30, 30, "X"⟩, ⟨0, 0x0104, 0, 31, 31, "X"⟩]
        initialState).key_buffer
      = (([⟨0, 0x0100, 0, 30, 30, "X"⟩,
           (⟨0, 0x0104, 0, 31, 31, "X"⟩ : KbEvent)] : List KbEvent).length
          : Int) ∧
    (processKbEvent initialState ⟨0, 0x0101, 0, 30, 30, "X"⟩).key_buffer
      = initialState.key_buffer :=
  ⟨keyboard_key_count_exact.1 _ (by decide),
   keyboard_key_count_exact.2 _ _ (by decide)⟩

/-- Without a failure oracle every storage call of the cycle runs, in
order, and no raise occurs. -/
theorem runCalls_none (calls : List (Storage → Storage)) (db : Storage)
    (idx : Nat) :
    runCalls none idx calls db
      = (calls.foldl (fun d c => c d) db, calls.length, false) := by
  induction calls generalizing db idx with
  | nil => simp [runCalls]
  | cons c rest ih => simp [runCalls, ih, Nat.add_comm]

/-- A failure-free flush characterised: the guard short-circuits on
all-zero scalars, otherwise all upserts run and the buffers reset. -/
theorem flush_stats_eq (s : TrackerState) (db : Storage) :
    flush_stats s db
      = if scalarsZero s then ⟨s, db, 0, false⟩
        else ⟨clearBuffers s,
              (flushCalls s).foldl (fun d c => c d) db,
              (flushCalls s).length, false⟩ := by
  unfold flush_stats flush_statsF
  split
  · rfl
  · rw [runCalls_none]
    rfl

/-- After any failure-free flush the four scalar counters are zero. -/
theorem flush_stats_scalarsZero (s : TrackerState) (db : Storage) :
    scalarsZero (flush_stats s db).tracker := by
  rw [flush_stats_eq]
  split
  · assumption
  · simp [scalarsZero, clearBuffers]

/-- Claim C4: a flush cycle on an entirely empty buffer issues zero
storage calls and leaves the database untouched; and for any starting
buffer and database, a second flush with no intervening events leaves
the database exactly where the first flush left it. -/
theorem flush_empty_noop_and_convergent :
    (∀ (s : TrackerState) (db : Storage), bufferEmpty s →
      (flush_stats s db).calls = 0 ∧ (flush_stats s db).db = db) ∧
    (∀ (s : TrackerState) (db : Storage),
      (flush_stats (flush_stats s db).tracker (flush_stats s db).db).db
        = (flush_stats s db).db) := by
  constructor
  · intro s db h
    rw [flush_stats_eq, if_pos h.1]
    exact ⟨rfl, rfl⟩
  · intro s db
    have h := flush_stats_scalarsZero s db
    rw [flush_stats_eq (flush_stats s db).tracker, if_pos h]

/-- Witness for `flush_empty_noop_and_convergent` on the fresh buffer
and the empty database. -/
theorem flush_empty_noop_and_convergent_witness :
    ((flush_stats initialState Storage.empty).calls = 0 ∧
      (flush_stats initialState Storage.empty).db = Storage.empty) ∧
    (flush_stats (flush_stats initialState Storage.empty).tracker
        (flush_stats initialState Storage.empty).db).db
      = (flush_stats initialState Storage.empty).db :=
  ⟨flush_empty_noop_and_convergent.1 initialState Storage.empty
      (by simp [bufferEmpty, scalarsZero, initialState]),
   flush_empty_noop_and_convergent.2 initialState Storage.empty⟩

/-- Claim C10: if any storage upsert of a flush cycle raises, the
in-memory buffer is left exactly as it was when the cycle began — the
reset statements run only after every upsert of the cycle has
completed. -/
theorem flush_failure_keeps_buffer (s : TrackerState) (db : Storage)
    (i : Nat) :
    (flush_statsF (some i) s db).raised = true →
    (flush_statsF (some i) s db).tracker = s := by
  unfold flush_statsF
  split
  · intro h
    simp at h
  · by_cases hf : (runCalls (some i) 0 (flushCalls s) db).2.2
    · intro _
      simp [hf]
    · intro h
      simp [hf] at h

/-- Witness for `flush_failure_keeps_buffer`: one buffered keystroke,
the very first upsert raises, the buffer still holds the keystroke. -/
theorem flush_failure_keeps_buffer_witness :
    (flush_statsF (some 0) { initialState with key_buffer := 1 }
        Storage.empty).raised = true ∧
    (flush_statsF (some 0) { initialState with key_buffer := 1 }
        Storage.empty).tracker = { initialState with key_buffer := 1 } := by
  constructor
  · simp [flush_statsF, scalarsZero, initialState, runCalls]
  · exact flush_failure_keeps_buffer _ _ 0
      (by simp [flush_statsF, scalarsZero, initialState, runCalls])

/-- Claim C9 counterexample: with a persisted mouse-heatmap row
`((10, 5), 3)` and an empty buffer, the snapshot reports an empty mouse
heatmap — the persisted per-bucket counts are never merged in (the
snapshot returns `dict(self.mouse_heatmap_buffer)` alone). -/
theorem snapshot_mouse_heatmap_not_merged :
    (get_stats_snapshot initialState
        ⟨none, [], [], [((10, 5), 3)]⟩).mouse_heatmap = [] ∧
    mergeCounts
        (Storage.mouse_heatmap_data ⟨none, [], [], [((10, 5), 3)]⟩)
        initialState.mouse_heatmap_buffer = [((10, 5), 3)] ∧
    ¬ ((get_stats_snapshot initialState
          ⟨none, [], [], [((10, 5), 3)]⟩).mouse_heatmap
        = mergeCounts
            (Storage.mouse_heatmap_data ⟨none, [], [], [((10, 5), 3)]⟩)
            initialState.mouse_heatmap_buffer) := by
  refine ⟨rfl, rfl, by decide⟩

/-- Claim C9 amended: `get_stats_snapshot` merges persisted plus
buffered values for keys, clicks, distance, scroll, and the keyboard
heatmap; the mouse heatmap it returns is the unflushed buffer alone,
with no persisted contribution. -/
theorem snapshot_merges_all_but_mouse (s : TrackerState) (db : Storage) :
    (get_stats_snapshot s db).keys = db.todayKeys + s.key_buffer ∧
    (get_stats_snapshot s db).clicks = db.todayClicks + s.click_buffer ∧
    (get_stats_snapshot s db).distance
      = db.todayDistance + s.distance_buffer ∧
    (get_stats_snapshot s db).scroll = db.todayScroll + s.scroll_buffer ∧
    (get_stats_snapshot s db).heatmap
      = mergeCounts db.get_today_heatmap s.heatmap_buffer ∧
    (get_stats_snapshot s db).mouse_heatmap = s.mouse_heatmap_buffer := by
  cases h : db.daily <;>
    simp [get_stats_snapshot, Storage.get_today_stats, Storage.todayKeys,
      Storage.todayClicks, Storage.todayDistance, Storage.todayScroll, h]

/-- `alBump` with a nonnegative increment keeps every count
nonnegative. -/
theorem alBump_nonneg {α : Type} [DecidableEq α]
    (m : List (α × Int)) (k : α) (v : Int)
    (hm : ∀ p ∈ m, 0 ≤ p.2) (hv : 0 ≤ v) :
    ∀ p ∈ alBump m k v, 0 ≤ p.2 := by
  induction m with
  | nil => simpa [alBump] using hv
  | cons q rest ih =>
    obtain ⟨k0, v0⟩ := q
    by_cases h : k0 = k
    · simp only [alBump, if_pos h]
      intro p hp
      rcases List.mem_cons.mp hp with hp | hp
      · subst hp
        exact add_nonneg (hm _ (List.mem_cons_self _ _)) hv
      · exact hm _ (List.mem_cons_of_mem _ hp)
    · simp only [alBump, if_neg h]
      intro p hp
      rcases List.mem_cons.mp hp with hp | hp
      · subst hp
        exact hm _ (List.mem_cons_self _ _)
      · exact ih (fun q hq => hm _ (List.mem_cons_of_mem _ hq)) _ hp

/-- `updApp` preserves any pointwise property of the records that holds
after the update function, both on the zero record and on any record
already satisfying it. -/
theorem updApp_pred (P : AppStats → Prop)
    (m : List (String × AppStats)) (app : String)
    (f : AppStats → AppStats)
    (hm : ∀ p ∈ m, P p.2) (hz : P (f AppStats.zero))
    (hf : ∀ a, P a → P (f a)) :
    ∀ p ∈ updApp m app f, P p.2 := by
  induction m with
  | nil => simpa [updApp] using hz
  | cons q rest ih =>
    obtain ⟨a, st⟩ := q
    by_cases h : a = app
    · simp only [updApp, if_pos h]
      intro p hp
      rcases List.mem_cons.mp hp with hp | hp
      · subst hp
        exact hf _ (hm _ (List.mem_cons_self _ _))
      · exact hm _ (List.mem_cons_of_mem _ hp)
    · simp only [updApp, if_neg h]
      intro p hp
      rcases List.mem_cons.mp hp with hp | hp
      · subst hp
        exact hm _ (List.mem_cons_self _ _)
      · exact ih (fun q hq => hm _ (List.mem_cons_of_mem _ hq)) _ hp

/-- `alBump` never removes entries. -/
theorem alBump_length_le {α : Type} [DecidableEq α]
    (m : List (α × Int)) (k : α) (v : Int) :
    m.length ≤ (alBump m k v).length := by
  induction m with
  | nil => simp [alBump]
  | cons q rest ih =>
    obtain ⟨k0, v0⟩ := q
    by_cases h : k0 = k <;> simp [alBump, h, ih]

/-- `updApp` never removes entries. -/
theorem updApp_length_le (m : List (String × AppStats)) (app : String)
    (f : AppStats → AppStats) :
    m.length ≤ (updApp m app f).length := by
  induction m with
  | nil => simp [updApp]
  | cons q rest ih =>
    obtain ⟨a, st⟩ := q
    by_cases h : a = app <;> simp [updApp, h, ih]

/-- One well-formed operation preserves nonnegativity of every counter
(given the positive screen metric fixed at construction). -/
theorem stepOp_nonneg (ppm : Rat) (hppm : 0 < ppm) (s : TrackerState)
    (op : TrackOp) (hs : NonNeg s) (hop : validOp op = true) :
    NonNeg (stepOp ppm s op) := by
  obtain ⟨h1, h2, h3, h4, h5, h6, h7⟩ := hs
  have hzero : NonNegApp AppStats.zero := by
    unfold NonNegApp AppStats.zero
    norm_num
  cases op with
  | press app vk sc =>
    simp only [stepOp, on_press, NonNeg]
    refine ⟨by linarith, h2, h3, h4, ?_, ?_, h7⟩
    · refine updApp_pred NonNegApp _ app _ h5 ?_ ?_
      · obtain ⟨g1, g2, g3, g4⟩ := hzero
        exact ⟨by simpa using add_nonneg g1 zero_le_one, g2, g3, g4⟩
      · intro a ha
        obtain ⟨g1, g2, g3, g4⟩ := ha
        exact ⟨by simpa using add_nonneg g1 zero_le_one, g2, g3, g4⟩
    · exact alBump_nonneg _ _ _ h6 (by norm_num)
  | move app x y d =>
    have hd : 0 ≤ d := by simpa [validOp] using hop
    have hdist : (0 : Rat) ≤ d / ppm / 1000 :=
      div_nonneg (div_nonneg hd hppm.le) (by norm_num)
    simp only [stepOp, on_move]
    cases hpos : s.last_mouse_pos with
    | none => exact ⟨h1, h2, h3, h4, h5, h6, h7⟩
    | some q =>
      simp only [NonNeg]
      refine ⟨h1, h2, by linarith, h4, ?_, h6, h7⟩
      refine updApp_pred NonNegApp _ app _ h5 ?_ ?_
      · obtain ⟨g1, g2, g3, g4⟩ := hzero
        exact ⟨g1, g2, g3, by simpa using add_nonneg g4 hdist⟩
      · intro a ha
        obtain ⟨g1, g2, g3, g4⟩ := ha
        exact ⟨g1, g2, g3, by simpa using add_nonneg g4 hdist⟩
  | click app x y =>
    simp only [stepOp, on_click, NonNeg]
    refine ⟨h1, by linarith, h3, h4, ?_, h6, ?_⟩
    · refine updApp_pred NonNegApp _ app _ h5 ?_ ?_
      · obtain ⟨g1, g2, g3, g4⟩ := hzero
        exact ⟨g1, by simpa using add_nonneg g2 zero_le_one, g3, g4⟩
      · intro a ha
        obtain ⟨g1, g2, g3, g4⟩ := ha
        exact ⟨g1, by simpa using add_nonneg g2 zero_le_one, g3, g4⟩
    · exact alBump_nonneg _ _ _ h7 (by norm_num)
  | scroll app delta =>
    have habs : (0 : Rat) ≤ ((|delta| : Int) : Rat) / 120 :=
      div_nonneg (by exact_mod_cast abs_nonneg delta) (by norm_num)
    simp only [stepOp, on_scroll, NonNeg]
    refine ⟨h1, h2, h3, by linarith, ?_, h6, h7⟩
    refine updApp_pred NonNegApp _ app _ h5 ?_ ?_
    · obtain ⟨g1, g2, g3, g4⟩ := hzero
      exact ⟨g1, g2, by simpa using add_nonneg g3 zero_le_one, g4⟩
    · intro a ha
      obtain ⟨g1, g2, g3, g4⟩ := ha
      exact ⟨g1, g2, by simpa using add_nonneg g3 zero_le_one, g4⟩
  | flush =>
    show NonNeg (flushBuffer s)
    unfold flushBuffer
    split
    · exact ⟨h1, h2, h3, h4, h5, h6, h7⟩
    · simp [NonNeg, clearBuffers]

/-- Folding well-formed operations from a nonnegative buffer stays
nonnegative. -/
theorem foldl_stepOp_nonneg (ppm : Rat) (hppm : 0 < ppm)
    (ops : List TrackOp) (s : TrackerState) (hs : NonNeg s)
    (hops : ∀ op ∈ ops, validOp op = true) :
    NonNeg (ops.foldl (stepOp ppm) s) := by
  induction ops generalizing s with
  | nil => simpa
  | cons op rest ih =>
    simp only [List.foldl_cons]
    exact ih (stepOp ppm s op)
      (stepOp_nonneg ppm hppm s op hs (hops op (List.mem_cons_self _ _)))
      (fun q hq => hops q (List.mem_cons_of_mem _ hq))

/-- Claim C8 counterexample: two mouse-move events to the same position
(pixel distance `sqrt(0) = 0`) create an all-zero per-app record while
every scalar counter stays zero; the following flush completes
successfully on this non-empty buffer yet clears nothing — the per-app
map survives, contradicting the claim that a successful flush on a
non-empty buffer empties all three maps. -/
theorem flush_skips_nonempty_zero_buffer :
    (runOps (96 / 25.4)
        [TrackOp.move "X" 10 10 0, TrackOp.move "X" 10 10 0]
      ).app_stats_buffer ≠ [] ∧
    scalarsZero (runOps (96 / 25.4)
        [TrackOp.move "X" 10 10 0, TrackOp.move "X" 10 10 0]) ∧
    runOps (96 / 25.4)
        [TrackOp.move "X" 10 10 0, TrackOp.move "X" 10 10 0,
         TrackOp.flush]
      = runOps (96 / 25.4)
        [TrackOp.move "X" 10 10 0, TrackOp.move "X" 10 10 0] ∧
    (runOps (96 / 25.4)
        [TrackOp.move "X" 10 10 0, TrackOp.move "X" 10 10 0,
         TrackOp.flush]).app_stats_buffer ≠ [] := by
  have hzero : (0 : Rat) / (96 / 25.4) / 1000 = 0 := by norm_num
  refine ⟨?_, ?_, ?_, ?_⟩ <;>
    simp [runOps, stepOp, on_move, initialState, updApp, flushBuffer,
      scalarsZero, hzero]

/-- Claim C8 amended: after any well-formed sequence of record and flush
operations every counter in the buffer is nonnegative; a flush that sees
a nonzero scalar counter zeroes all scalars and empties all three maps;
a flush whose four scalar counters are all zero is a no-op that leaves
the maps as they are (even when a zero-distance move has left an
all-zero per-app record behind); and no record operation ever removes a
map entry. -/
theorem buffer_nonneg_and_flush_clearing :
    (∀ (ppm : Rat) (ops : List TrackOp), 0 < ppm →
      (∀ op ∈ ops, validOp op = true) → NonNeg (runOps ppm ops)) ∧
    (∀ s : TrackerState, ¬ scalarsZero s →
      scalarsZero (flushBuffer s) ∧
      (flushBuffer s).app_stats_buffer = [] ∧
      (flushBuffer s).heatmap_buffer = [] ∧
      (flushBuffer s).mouse_heatmap_buffer = []) ∧
    (∀ s : TrackerState, scalarsZero s → flushBuffer s = s) ∧
    (∀ (ppm : Rat) (s : TrackerState) (op : TrackOp),
      op ≠ TrackOp.flush →
      s.app_stats_buffer.length
          ≤ (stepOp ppm s op).app_stats_buffer.length ∧
      s.heatmap_buffer.length
          ≤ (stepOp ppm s op).heatmap_buffer.length ∧
      s.mouse_heatmap_buffer.length
          ≤ (stepOp ppm s op).mouse_heatmap_buffer.length) := by
  refine ⟨?_, ?_, ?_, ?_⟩
  · intro ppm ops hppm hops
    exact foldl_stepOp_nonneg ppm hppm ops initialState
      (by simp [NonNeg, initialState]) hops
  · intro s h
    simp only [flushBuffer, if_neg h]
    exact ⟨by simp [scalarsZero, clearBuffers], rfl, rfl, rfl⟩
  · intro s h
    simp [flushBuffer, h]
  · intro ppm s op hop
    cases op with
    | press app vk sc =>
      exact ⟨updApp_length_le _ _ _, alBump_length_le _ _ _, le_refl _⟩
    | move app x y d =>
      cases hpos : s.last_mouse_pos with
      | none => simp [stepOp, on_move, hpos]
      | some q =>
        refine ⟨?_, ?_, ?_⟩ <;> simp [stepOp, on_move, hpos]
        exact updApp_length_le _ _ _
    | click app x y =>
      exact ⟨updApp_length_le _ _ _, le_refl _, alBump_length_le _ _ _⟩
    | scroll app delta =>
      exact ⟨updApp_length_le _ _ _, le_refl _, le_refl _⟩
    | flush => exact absurd rfl hop

/-- Witness for `buffer_nonneg_and_flush_clearing` on a concrete
history, a buffer holding one keystroke, the fresh buffer, and a
concrete press operation. -/
theorem buffer_nonneg_and_flush_clearing_witness :
    NonNeg (runOps (96 / 25.4)
      [TrackOp.press "X" 30 30, TrackOp.click "X" 12 7,
       TrackOp.scroll "X" (-120), TrackOp.move "X" 3 4 5,
       TrackOp.move "X" 6 8 5, TrackOp.flush]) ∧
    (scalarsZero (flushBuffer { initialState with key_buffer := 1 }) ∧
      (flushBuffer { initialState with key_buffer := 1 }
        ).app_stats_buffer = [] ∧
      (flushBuffer { initialState with key_buffer := 1 }
        ).heatmap_buffer = [] ∧
      (flushBuffer { initialState with key_buffer := 1 }
        ).mouse_heatmap_buffer = []) ∧
    flushBuffer initialState = initialState ∧
    (initialState.app_stats_buffer.length
        ≤ (stepOp 1 initialState
            (TrackOp.press "X" 30 30)).app_stats_buffer.length ∧
      initialState.heatmap_buffer.length
        ≤ (stepOp 1 initialState
            (TrackOp.press "X" 30 30)).heatmap_buffer.length ∧
      initialState.mouse_heatmap_buffer.length
        ≤ (stepOp 1 initialState
            (TrackOp.press "X" 30 30)).mouse_heatmap_buffer.length) :=
  ⟨buffer_nonneg_and_flush_clearing.1 (96 / 25.4) _ (by norm_num)
      (by intro op hop
          fin_cases hop <;> norm_num [validOp]),
   buffer_nonneg_and_flush_clearing.2.1 _
      (by simp [scalarsZero, initialState]),
   buffer_nonneg_and_flush_clearing.2.2.1 initialState
      (by simp [scalarsZero, initialState]),
   buffer_nonneg_and_flush_clearing.2.2.2 1 initialState _ (by simp)⟩

end KMTracker
